import Mathlib

/-!
Shallow embedding of the GraphWatcher build-pipeline coordinator script
(the Node script whose functions are `checkCapability`, `watchProject`,
`subscribe`, `compileRelayGeneratedArtifacts`, `syncGraphqlSchemaToDisk`
and `start`).

The script's effectful collaborators (the watchman notification service,
the HTTP introspection endpoint, the relay-compiler subprocess and the
filesystem) are modelled as oracles supplied as inputs; each modelled
function returns the trace of the effects the source code performs
(requests issued, log lines emitted, files written, listeners registered,
connection closes, process exit / uncaught exception).  Callbacks follow
the error-first convention of the watchman client library: on an error
the callback is invoked with the error and with no response value, so a
field access or a parameter destructuring on the absent response raises a
TypeError, exactly as in the JavaScript source.
-/

namespace GraphWatcher

/-- JSON values, the data carried by the introspection endpoint and the
watchman protocol.  Numbers are modelled as integers; no claim depends on
non-integral numeric values. -/
inductive Json
  | null
  | bool (b : Bool)
  | num (n : Int)
  | str (s : String)
  | arr (elems : List Json)
  | obj (fields : List (String × Json))

/-- JavaScript truthiness of a possibly-absent value (`undefined` is
modelled as `none`), as used by `if (errors)` in
`syncGraphqlSchemaToDisk`. -/
def jsTruthy : Option Json → Bool
  | none => false
  | some .null => false
  | some (.bool b) => b
  | some (.num n) => decide (n ≠ 0)
  | some (.str s) => decide (s ≠ "")
  | some (.arr _) => true
  | some (.obj _) => true

/-- Lower-case hexadecimal digit, for JSON string escapes. -/
def hexDigit (n : Nat) : Char :=
  if n < 10 then Char.ofNat (48 + n) else Char.ofNat (87 + n % 16)

/-- Four-digit hexadecimal rendering of a code point below 0x10000. -/
def hex4 (n : Nat) : String :=
  String.mk [hexDigit (n / 4096 % 16), hexDigit (n / 256 % 16),
             hexDigit (n / 16 % 16), hexDigit (n % 16)]

/-- Escaping of one character inside a JSON string literal, following
`JSON.stringify`. -/
def escapeJsonChar (c : Char) : String :=
  if c = '"' then "\\\""
  else if c = '\\' then "\\\\"
  else if c = '\n' then "\\n"
  else if c = '\t' then "\\t"
  else if c = '\r' then "\\r"
  else if c = (Char.ofNat 8) then "\\b"
  else if c = (Char.ofNat 12) then "\\f"
  else if c.toNat < 32 then "\\u" ++ hex4 c.toNat
  else String.singleton c

/-- JSON string literal rendering, following `JSON.stringify`. -/
def encodeJsonString (s : String) : String :=
  "\"" ++ String.join (s.data.map escapeJsonChar) ++ "\""

/-- Pretty printer for `Json` following `JSON.stringify(v, null, 2)`:
two-space indentation, each array element / object member on its own
line, empty arrays and objects rendered inline.  `ind` is the
indentation of the surrounding context. -/
def jsonStringifyVal (ind : String) : Json → String
  | .null => "null"
  | .bool b => if b then "true" else "false"
  | .num n => toString n
  | .str s => encodeJsonString s
  | .arr es =>
      if es.isEmpty then "[]"
      else
        "[\n" ++
        String.intercalate ",\n"
          (es.attach.map (fun e => ind ++ "  " ++ jsonStringifyVal (ind ++ "  ") e.1)) ++
        "\n" ++ ind ++ "]"
  | .obj fs =>
      if fs.isEmpty then "\x7b\x7d"
      else
        "\x7b\n" ++
        String.intercalate ",\n"
          (fs.attach.map (fun f =>
            ind ++ "  " ++ encodeJsonString f.1.1 ++ ": " ++
            jsonStringifyVal (ind ++ "  ") f.1.2)) ++
        "\n" ++ ind ++ "\x7d"
  termination_by v => sizeOf v
  decreasing_by
  · have h1 := List.sizeOf_lt_of_mem e.2
    have h2 : sizeOf (Json.arr es) = 1 + sizeOf es := by simp
    omega
  · obtain ⟨⟨k, v⟩, hm⟩ := f
    have h1 := List.sizeOf_lt_of_mem hm
    have h2 : sizeOf (Json.obj fs) = 1 + sizeOf fs := by simp
    have h3 : sizeOf (k, v) = 1 + sizeOf k + sizeOf v := by simp
    simp only at h1 ⊢
    omega

/-- Model of `JSON.stringify(v, null, 2)`. -/
def jsonStringify2 (v : Json) : String := jsonStringifyVal "" v

/-- Model of JavaScript `s.split('\n')`: cut the string at every newline,
keeping empty segments (so a trailing newline yields a final empty
segment). -/
def jsSplitNewlineGo : List Char → List Char → List String
  | [], acc => [String.mk acc.reverse]
  | c :: cs, acc =>
      if c = '\n' then String.mk acc.reverse :: jsSplitNewlineGo cs []
      else jsSplitNewlineGo cs (c :: acc)

/-- Model of JavaScript `s.split('\n')`. -/
def jsSplitNewline (s : String) : List String := jsSplitNewlineGo s.data []

/-- Normalization of one `Array.prototype.slice` index argument against a
list length: negative indices count from the end, clamped to
`[0, len]`. -/
def jsSliceIndex (len : Nat) (i : Int) : Nat :=
  if i < 0 then ((len : Int) + i).toNat else min i.toNat len

/-- Model of JavaScript `xs.slice(start, stop)` for arrays, including
negative-index handling. -/
def jsSlice {α : Type} (xs : List α) (start istop : Int) : List α :=
  (xs.take (jsSliceIndex xs.length istop)).drop (jsSliceIndex xs.length start)

/-- Log levels of the winston logger used by the script. -/
inductive LogLevel
  | info
  | warn
  | error
  | debug
deriving DecidableEq, BEq

/-- One emitted log line: its level and its message. -/
structure LogLine where
  level : LogLevel
  msg : String
deriving DecidableEq, BEq

/-- Messages of the error-level lines of a log trace. -/
def errorMessages (logs : List LogLine) : List String :=
  (logs.filter (fun l => l.level == LogLevel.error)).map (fun l => l.msg)

/-- Outcome of an awaited JavaScript promise: it either fulfills or
rejects. -/
inductive PromiseOutcome
  | fulfilled
  | rejected (err : String)
deriving DecidableEq, BEq

/-- The possible outcomes of the `fetch` round-trip performed by
`syncGraphqlSchemaToDisk`, as seen by the `await` sites in its body:
the fetch itself may reject; the response may have a non-success status
(`response.ok` false); `response.json()` may reject on an invalid body;
or the body parses, yielding its (possibly absent) `data` and `errors`
fields. -/
inductive FetchOutcome
  | throwErr (err : String)
  | notOk (status : Nat)
  | okBadJson (err : String)
  | okJson (data : Option Json) (errors : Option Json)

/-- A fetch outcome on which `syncGraphqlSchemaToDisk` does not reach its
write: a transport rejection, a non-success status, an unparsable body,
or a parsed body whose `errors` field is truthy. -/
def FetchOutcome.isFailure : FetchOutcome → Bool
  | .throwErr _ => true
  | .notOk _ => true
  | .okBadJson _ => true
  | .okJson _ errors => jsTruthy errors

/-- Effects of one `syncGraphqlSchemaToDisk` run: the log lines emitted,
the file writes performed (path and full content; `writeFile` overwrites)
and the outcome of the promise the caller awaits. -/
structure SyncResult where
  logs : List LogLine
  writes : List (String × String)
  outcome : PromiseOutcome
deriving DecidableEq, BEq

/-- The fixed schema-snapshot path (`SCHEMA_PATH` in the source). -/
def SCHEMA_PATH : String := "app/graph/schema.json"

/-- The configured GraphQL endpoint of `syncGraphqlSchemaToDisk`. -/
def graphqlEndpoint : String := "http://graphql.buildkite.localhost/v1"

/-- The object serialized to disk: `\x7bdata\x7d` — when `data` is absent
(`undefined`), `JSON.stringify` omits the member, so the serialized
object is empty. -/
def dataFields : Option Json → List (String × Json)
  | none => []
  | some d => [("data", d)]

/-- Model of `syncGraphqlSchemaToDisk` (source lines 128–152).  The whole
body sits in a `try`/`catch` whose handler only logs, so the returned
promise always fulfills; a thrown `errors` payload is logged as
`JSON.stringify(errors, null, 2)`; a write happens only on a success
status with a parsed body whose `errors` field is falsy. -/
def syncGraphqlSchemaToDisk (fetchResult : FetchOutcome) : SyncResult :=
  let fetching : LogLine :=
    ⟨.info, s!"Fetching current GraphQL introspection schema from \"{graphqlEndpoint}\""⟩
  match fetchResult with
  | .throwErr err => ⟨[fetching, ⟨.error, err⟩], [], .fulfilled⟩
  | .notOk status =>
      ⟨[fetching,
        ⟨.error, s!"Error syncing current GraphQL schema, request to \"{graphqlEndpoint}\" failed with status code {status}"⟩],
       [], .fulfilled⟩
  | .okBadJson err => ⟨[fetching, ⟨.error, err⟩], [], .fulfilled⟩
  | .okJson data errors =>
      if jsTruthy errors then
        ⟨[fetching, ⟨.error, jsonStringify2 (errors.getD Json.null)⟩], [], .fulfilled⟩
      else
        ⟨[fetching, ⟨.info, s!"Synced current GraphQL schema to \"{SCHEMA_PATH}\""⟩],
         [(SCHEMA_PATH, jsonStringify2 (Json.obj (dataFields data)))],
         .fulfilled⟩

/-- The `code` property of a rejected `exec` error, as compared by
`error.code !== 0`: a number (the exit code), a string (e.g. `ENOENT`
from a spawn failure), `null` (killed by signal) or `undefined`. -/
inductive JsCode
  | num (n : Int)
  | str (s : String)
  | nullv
  | undef
deriving DecidableEq, BEq

/-- JavaScript strict inequality `code !== 0`: false only for the number
zero. -/
def JsCode.strictNeZero : JsCode → Bool
  | .num n => decide (n ≠ 0)
  | _ => true

/-- Outcome of the awaited promisified `exec` call: fulfilled with the
captured stdout, or rejected with an error carrying its `code` and the
captured `stdout`. -/
inductive ExecOutcome
  | success (stdout : String)
  | failure (code : JsCode) (stdout : String)

/-- Effects of one `compileRelayGeneratedArtifacts` run. -/
structure RunResult where
  logs : List LogLine
  outcome : PromiseOutcome
deriving DecidableEq, BEq

/-- Model of `compileRelayGeneratedArtifacts` (source lines 116–126).  On
a fulfilled `exec`, stdout is split on newlines, sliced with
`.slice(4, -1)` and each remaining line logged at info level; on a
rejected `exec` with `error.code !== 0`, the same slice of the captured
stdout is logged at error level; the error object itself is never
logged, and the `catch` swallows the failure, so the promise always
fulfills. -/
def compileRelayGeneratedArtifacts (execResult : ExecOutcome) : RunResult :=
  let executing : LogLine := ⟨.info, "Executing relay-compiler"⟩
  match execResult with
  | .success stdout =>
      ⟨executing ::
        (jsSlice (jsSplitNewline stdout) 4 (-1)).map (fun l => ⟨.info, l⟩),
       .fulfilled⟩
  | .failure code stdout =>
      if code.strictNeZero then
        ⟨executing ::
          (jsSlice (jsSplitNewline stdout) 4 (-1)).map (fun l => ⟨.error, l⟩),
         .fulfilled⟩
      else
        ⟨[executing], .fulfilled⟩

/-- A filesystem modelled as a partial map from path to content;
`applyWrites` folds a write trace over it, each write fully overwriting
the previous content at its path. -/
def applyWrites (fileSystem : String → Option String)
    (writes : List (String × String)) : String → Option String :=
  writes.foldl (fun fs w => fun q => if q = w.fst then some w.snd else fs q) fileSystem

/-- Response of a successful `watch-project` command: the watch handle,
the relative-path prefix (absent when the watched path is itself the
root) and an optional warning. -/
structure WatchResp where
  watch : String
  relative_path : Option String
  warning : Option String
deriving DecidableEq, BEq

/-- A request sent to the watchman service over the shared client
connection.  The `subscribe` request also carries the merged filter
configuration (`\x7b...config, since, relative_root\x7d`); the model
records the parts a claim can depend on: the watch, the subscription id,
the clock and the relative root. -/
inductive Request
  | capabilityCheck (required : List String)
  | watchProject (path : String)
  | clock (watch : String)
  | subscribe (watch : String) (id : String) (since : String) (relative_root : Option String)
deriving DecidableEq, BEq

/-- The code location that called `client.end()` on the shared
connection. -/
inductive CloseOrigin
  | capabilityCheckFailure
  | signalHandler
deriving DecidableEq, BEq

/-- A JavaScript runtime error raised inside a callback. -/
inductive JsError
  | typeError (msg : String)
deriving DecidableEq, BEq

/-- How a run stopped, when it did: an explicit `process.exit`, or an
exception that escaped a callback uncaught. -/
inductive Halt
  | exited (code : Nat)
  | thrown (e : JsError)
deriving DecidableEq, BEq

/-- Identity of a handler closure passed to `subscribe` in `start`:
the schema-source handler (`await sync(); await compile()`) or the
frontend-source handler (`await compile()`). -/
inductive HandlerTag
  | graphHandler
  | frontendHandler
deriving DecidableEq, BEq

/-- A dispatcher registered by `client.on('subscription', ...)`: the
subscription id it filters on and the handler it forwards matching
events to. -/
structure Listener where
  subId : String
  tag : HandlerTag
deriving DecidableEq, BEq

/-- The observable effects of a (partial) run of the script. -/
structure Trace where
  requests : List Request
  logs : List LogLine
  listeners : List Listener
  closes : List CloseOrigin
  writes : List (String × String)
  halt : Option Halt
deriving DecidableEq, BEq

/-- The empty trace, before anything has run. -/
def Trace.empty : Trace := ⟨[], [], [], [], [], none⟩

/-- Append a log line. -/
def Trace.log (t : Trace) (lvl : LogLevel) (m : String) : Trace :=
  { t with logs := t.logs ++ [⟨lvl, m⟩] }

/-- Record a request sent to the watchman service. -/
def Trace.request (t : Trace) (r : Request) : Trace :=
  { t with requests := t.requests ++ [r] }

/-- Record a registered subscription dispatcher. -/
def Trace.addListener (t : Trace) (l : Listener) : Trace :=
  { t with listeners := t.listeners ++ [l] }

/-- Record a `client.end()` call. -/
def Trace.close (t : Trace) (o : CloseOrigin) : Trace :=
  { t with closes := t.closes ++ [o] }

/-- Record a `process.exit(code)`. -/
def Trace.exitProcess (t : Trace) (code : Nat) : Trace :=
  { t with halt := some (.exited code) }

/-- Record an exception escaping a callback. -/
def Trace.throwJs (t : Trace) (e : JsError) : Trace :=
  { t with halt := some (.thrown e) }

/-- Log a watchman warning when the response carries one (the
`'warning' in response` branch of `watchProject`). -/
def Trace.warnOpt (t : Trace) (w : Option String) : Trace :=
  match w with
  | some m => t.log .warn s!"Establishing watch generated warning: {m}"
  | none => t

/-- The external world the script runs against: the watchman service's
response to each command (error-first: an error means the callback is
invoked with the error and no response value), the HTTP introspection
endpooint's behaviour and the relay-compiler subprocess's behaviour. -/
structure Env where
  capability : Except String String
  watchProjectResp : String → Except String WatchResp
  clockResp : String → Except String String
  subscribeResp : String → String → Except String String
  fetchResult : FetchOutcome
  execResult : ExecOutcome

/-- Model of Node's `path.join` for the separator-clean abstract paths
used here: concatenation with a single separator. -/
def pathJoin (a b : String) : String := a ++ "/" ++ b

/-- Model of Node's `path.normalize`: the identity, since the model's
abstract paths contain no redundant separators or dot segments.  No
claim depends on path canonicalization. -/
def pathNormalize (p : String) : String := p

/-- Model of `checkCapability` (source lines 21–32): sends a
capability-check requiring `relative_root`; on an error the callback
logs the error, closes the client connection and exits the process with
status 1; on success it resolves with the response (its `version` field
is what `start` uses). -/
def checkCapability (o : Env) (t : Trace) : Trace × Option String :=
  let t := t.request (.capabilityCheck ["relative_root"])
  match o.capability with
  | .error e => ((((t.log .error e).close .capabilityCheckFailure).exitProcess 1), none)
  | .ok version => (t, some version)

/-- Model of `watchProject` (source lines 35–52): logs, sends a
`watch-project` command for the given path; on an error the callback
logs the error and exits the process with status 1 (the promise never
resolves); on success it logs any warning, logs the establishment and
resolves with the response.  There is no cache: every call sends its own
`watch-project` request. -/
def watchProject (o : Env) (path : String) (t : Trace) : Trace × Option WatchResp :=
  if t.halt.isSome then (t, none) else
  let t := t.log .info s!"Establishing watch: {path}"
  let t := t.request (.watchProject path)
  match o.watchProjectResp path with
  | .error e => ((t.log .error e).exitProcess 1, none)
  | .ok resp =>
      let t := t.warnOpt resp.warning
      (t.log .info s!"Watch established with watcher on \"{resp.watch}\"", some resp)

/-- Two consecutive calls of `watchProject` on the same path, the second
starting from the first's trace. -/
def watchProjectTwice (o : Env) (path : String) : Trace × Option WatchResp × Option WatchResp :=
  let r1 := watchProject o path Trace.empty
  let r2 := watchProject o path r1.1
  (r2.1, r1.2, r2.2)

/-- The per-subscription filter configuration (the `config` member of a
`SUBSCRIPTIONS` entry). -/
structure SubscriptionConfig where
  expression : Json
  fields : List String

/-- One entry of the `SUBSCRIPTIONS` table: id, root-relative path and
filter configuration. -/
structure SubscriptionSpec where
  id : String
  path : String
  config : SubscriptionConfig

/-- The `SUBSCRIPTIONS.frontend` entry of the source. -/
def frontendSubscription : SubscriptionSpec :=
  { id := "frontend"
    path := "vendor/frontend/app"
    config :=
      { expression := Json.arr
          [Json.str "allof",
           Json.arr [Json.str "match", Json.str "**/*.js", Json.str "wholename"],
           Json.arr [Json.str "not",
             Json.arr [Json.str "match", Json.str "**/__generated__/**", Json.str "wholename"]],
           Json.arr [Json.str "not", Json.arr [Json.str "empty"]],
           Json.arr [Json.str "type", Json.str "f"]]
        fields := ["name", "size", "mtime_ms", "exists", "type"] } }

/-- The `SUBSCRIPTIONS.graph` entry of the source. -/
def graphSubscription : SubscriptionSpec :=
  { id := "graph"
    path := "app/models/api/graph"
    config :=
      { expression := Json.arr
          [Json.str "allof",
           Json.arr [Json.str "match", Json.str "**/*.rb", Json.str "wholename"],
           Json.arr [Json.str "not", Json.arr [Json.str "empty"]],
           Json.arr [Json.str "type", Json.str "f"]]
        fields := ["name", "size", "mtime_ms", "exists", "type"] } }

/-- Model of `subscribe` (source lines 54–83).  It awaits `watchProject`
on `normalize(join(rootPath, spec.path))`, then sends a `clock` command.
The clock callback's parameter list destructures the response
(`(error, \x7b clock: since \x7d)`); when the command fails the callback
receives the error and no response value, so the destructuring raises a
TypeError before the callback body — and hence before its
`if (error) logger.error(error)` — can run.  On a clock success it sends
the `subscribe` command; on a subscribe failure the callback logs the
error but then reads `response.subscribe` of the absent response, which
raises a TypeError, so the dispatcher is never registered.  On success
it logs the establishment and registers the dispatcher for `spec.id`. -/
def subscribe (o : Env) (rootPath : String) (spec : SubscriptionSpec)
    (tag : HandlerTag) (t : Trace) : Trace :=
  if t.halt.isSome then t else
  match watchProject o (pathNormalize (pathJoin rootPath spec.path)) t with
  | (t, none) => t
  | (t, some project) =>
      let t := t.request (.clock project.watch)
      match o.clockResp project.watch with
      | .error _ =>
          t.throwJs (.typeError "Cannot destructure property clock of undefined")
      | .ok since =>
          let t := t.request (.subscribe project.watch spec.id since project.relative_path)
          match o.subscribeResp project.watch spec.id with
          | .error e =>
              (t.log .error e).throwJs
                (.typeError "Cannot read properties of undefined (reading subscribe)")
          | .ok subName =>
              (t.log .info s!"Subscription \"{subName}\" established").addListener
                ⟨spec.id, tag⟩

/-- Merge the effects of an awaited `syncGraphqlSchemaToDisk` run into
the trace. -/
def mergeSyncResult (t : Trace) (r : SyncResult) : Trace :=
  { t with logs := t.logs ++ r.logs, writes := t.writes ++ r.writes }

/-- Merge the effects of an awaited `compileRelayGeneratedArtifacts` run
into the trace. -/
def mergeRunResult (t : Trace) (r : RunResult) : Trace :=
  { t with logs := t.logs ++ r.logs }

/-- Model of `start` (source lines 154–186) from the capability check
onward: check capability (fatal on failure), log the version, run the
initial schema sync and codegen once, then set up the graph and frontend
subscriptions.  The two `subscribe` calls are not awaited in the source
and their network round-trips interleave; they are modelled
sequentially — each subscription's own command order, and the resulting
registered dispatchers, are as in the source, and no claim depends on
the cross-subscription interleaving of requests.  The signal handlers
installed at the top of `start` are modelled by `deliverSignal` /
`runSystem` below. -/
def start (o : Env) (root : String) : Trace :=
  match checkCapability o Trace.empty with
  | (t, none) => t
  | (t, some version) =>
      let t := t.log .info s!"Starting GraphWatcher (Watchman: {version})"
      let t := mergeSyncResult t (syncGraphqlSchemaToDisk o.fetchResult)
      let t := mergeRunResult t (compileRelayGeneratedArtifacts o.execResult)
      let t := t.log .info "Setting up subscriptions for GraphQL / Relay filesystem events"
      let t := subscribe o root graphSubscription .graphHandler t
      subscribe o root frontendSubscription .frontendHandler t

/-- The two handled termination signals. -/
inductive Signal
  | SIGINT
  | SIGTERM
deriving DecidableEq, BEq

/-- Printable name of a signal. -/
def Signal.name : Signal → String
  | .SIGINT => "SIGINT"
  | .SIGTERM => "SIGTERM"

/-- Model of the termination-signal handler installed by `start` (source
lines 164–170): log the signal, close the client connection, log a
farewell and exit with status 0.  A signal arriving after the process
has already halted has no effect. -/
def deliverSignal (s : Signal) (t : Trace) : Trace :=
  if t.halt.isSome then t else
  ((((t.log .warn s!"Received {s.name} — shutting down!").close .signalHandler).log
      .info "Bye! 👋🏼").exitProcess 0)

/-- A whole run of the script: `start`, followed by at most one
delivered termination signal once the setup has quiesced. -/
def runSystem (o : Env) (root : String) (sig : Option Signal) : Trace :=
  match sig with
  | none => start o root
  | some s => deliverSignal s (start o root)

/-- One entry of a change-event batch's file list (the fields requested
by the subscriptions). -/
structure FileEntry where
  name : String
  size : Nat
  mtime_ms : Nat
  exists_ : Bool
  type : String
deriving DecidableEq, BEq

/-- A change-event batch pushed by the watchman service: the id of the
subscription it belongs to and its ordered file list. -/
structure ChangeEvent where
  subscription : String
  files : List FileEntry
deriving DecidableEq, BEq

/-- The body of one registered dispatcher (source lines 72–80) applied
to one inbound event: events whose `subscription` differs from the
dispatcher's id are ignored (`return`); a matching event is forwarded to
the handler (the source also emits a debug line, suppressed at the
configured info level, and an info line, before calling the handler). -/
def listenerDeliver (subscriptionId : String) (tag : HandlerTag)
    (event : ChangeEvent) : Option (HandlerTag × ChangeEvent) :=
  if event.subscription ≠ subscriptionId then none
  else some (tag, event)

/-- Delivery of one inbound event to every registered dispatcher: the
shared client emits the event to each listener once, in registration
order; the result is the list of handler invocations that occur. -/
def dispatchEvent (ls : List Listener) (e : ChangeEvent) :
    List (HandlerTag × ChangeEvent) :=
  ls.filterMap (fun l => listenerDeliver l.subId l.tag e)

/-- The two pipeline stages a handler can run. -/
inductive PipelineAction
  | sync
  | codegen
deriving DecidableEq, BEq

/-- The sequence of pipeline stages each handler closure runs, in order,
each awaited before the next starts (source lines 179–185): the graph
handler awaits `syncGraphqlSchemaToDisk()` and then
`compileRelayGeneratedArtifacts()`; the frontend handler awaits only
`compileRelayGeneratedArtifacts()`. -/
def handlerActions : HandlerTag → List PipelineAction
  | .graphHandler => [.sync, .codegen]
  | .frontendHandler => [.codegen]

/-- The pipeline stages triggered, in order, by delivering one event to
a set of registered dispatchers. -/
def eventPipelineActions (ls : List Listener) (e : ChangeEvent) : List PipelineAction :=
  (dispatchEvent ls e).foldr (fun inv acc => handlerActions inv.fst ++ acc) []

/-- An environment in which every watchman command succeeds, the
introspection endpoint answers normally and the compiler exits
cleanly. -/
def allOkEnv : Env :=
  { capability := .ok "4.9.0"
    watchProjectResp := fun p => .ok ⟨"/work", some p, none⟩
    clockResp := fun _ => .ok "c:1:2:3:4"
    subscribeResp := fun _ id => .ok id
    fetchResult := .okJson (some (Json.obj [("x", Json.num 1)])) none
    execResult := .success "" }

/-- An environment whose only failure is the `clock` command. -/
def clockFailEnv : Env :=
  { capability := .ok "4.9.0"
    watchProjectResp := fun p => .ok ⟨"/work", some p, none⟩
    clockResp := fun _ => .error "unable to resolve root"
    subscribeResp := fun _ id => .ok id
    fetchResult := .notOk 500
    execResult := .success "" }

/-- An environment whose only failure is the `subscribe` command. -/
def subscribeFailEnv : Env :=
  { capability := .ok "4.9.0"
    watchProjectResp := fun p => .ok ⟨"/work", some p, none⟩
    clockResp := fun _ => .ok "c:1:2:3:4"
    subscribeResp := fun _ _ => .error "subscription rejected"
    fetchResult := .notOk 500
    execResult := .success "" }

/-- An environment whose capability check fails. -/
def capFailEnv : Env :=
  { capability := .error "required capability relative_root is not supported"
    watchProjectResp := fun _ => .error "unreachable"
    clockResp := fun _ => .error "unreachable"
    subscribeResp := fun _ _ => .error "unreachable"
    fetchResult := .notOk 500
    execResult := .success "" }

/-- A success-status introspection response whose body carries an
`errors` field (and no data), as returned by a GraphQL endpoint that
rejects the query. -/
def errorsResponse : FetchOutcome :=
  .okJson none (some (Json.arr [Json.obj [("message", Json.str "Cannot query field")]]))

/-- A filesystem holding a previously written snapshot at the schema
path. -/
def priorSnapshotFs : String → Option String :=
  fun q => if q = SCHEMA_PATH then some "old snapshot" else none

/-- The dispatcher registered for the graph subscription. -/
def graphListener : Listener := ⟨"graph", .graphHandler⟩

/-- The dispatcher registered for the frontend subscription. -/
def frontendListener : Listener := ⟨"frontend", .frontendHandler⟩

/-- A sample ordered file list of a change-event batch. -/
def sampleFiles : List FileEntry :=
  [⟨"user.rb", 120, 1000, true, "f"⟩, ⟨"team.rb", 80, 1001, true, "f"⟩]

/-- A change-event batch tagged for the graph subscription. -/
def graphEvent : ChangeEvent := ⟨"graph", sampleFiles⟩

/-- A change-event batch tagged with an id belonging to no registered
subscription. -/
def strayEvent : ChangeEvent := ⟨"settings", []⟩

/-- The list slice `xs.slice(4, -1)` used by `compileRelayGeneratedArtifacts`
equals dropping the first four elements and the final element. -/
theorem jsSlice_four_negOne {α : Type} (xs : List α) :
    jsSlice xs 4 (-1) = (xs.drop 4).dropLast := by
  have hm1 : jsSliceIndex xs.length (-1) = xs.length - 1 := by
    simp only [jsSliceIndex]
    norm_num
    omega
  have h4 : jsSliceIndex xs.length 4 = min 4 xs.length := by
    simp only [jsSliceIndex]
    norm_num
    rfl
  rw [jsSlice, h4, hm1, List.drop_take, List.dropLast_eq_take, List.length_drop]
  rcases le_or_lt 4 xs.length with h | h
  · have hmin : min 4 xs.length = 4 := by omega
    have heq : xs.length - 1 - 4 = xs.length - 4 - 1 := by omega
    rw [hmin, heq]
  · have hmin : min 4 xs.length = xs.length := by omega
    have hdrop : xs.drop 4 = [] := List.drop_eq_nil_of_le (by omega)
    rw [hmin, hdrop]
    have hz : xs.length - 1 - xs.length = 0 := by omega
    rw [hz]
    simp

/-- No code path of `watchProject` calls `client.end()`. -/
theorem watchProject_closes (o : Env) (p : String) (t : Trace) :
    (watchProject o p t).1.closes = t.closes := by
  rw [watchProject]
  by_cases h : t.halt.isSome
  · simp [h]
  · cases hr : o.watchProjectResp p with
    | error e => simp [h, hr, Trace.log, Trace.request, Trace.exitProcess]
    | ok resp =>
        cases hw : resp.warning <;>
          simp [h, hr, hw, Trace.log, Trace.request, Trace.warnOpt]

/-- No code path of `subscribe` calls `client.end()`. -/
theorem subscribe_closes (o : Env) (r : String) (s : SubscriptionSpec)
    (tag : HandlerTag) (t : Trace) :
    (subscribe o r s tag t).closes = t.closes := by
  rw [subscribe]
  by_cases h : t.halt.isSome
  · simp [h]
  · simp only [h, if_false, Bool.false_eq_true]
    rcases hwp : watchProject o (pathNormalize (pathJoin r s.path)) t with ⟨t1, r1⟩
    have h1 : t1.closes = t.closes := by
      have hh := watchProject_closes o (pathNormalize (pathJoin r s.path)) t
      rw [hwp] at hh
      exact hh
    cases r1 with
    | none => simpa using h1
    | some project =>
        cases hc : o.clockResp project.watch with
        | error e => simp [hc, Trace.request, Trace.throwJs, h1]
        | ok clk =>
            cases hs : o.subscribeResp project.watch s.id with
            | error e => simp [hc, hs, Trace.request, Trace.log, Trace.throwJs, h1]
            | ok sn => simp [hc, hs, Trace.request, Trace.log, Trace.addListener, h1]

/-- Reduction of the derived level comparison on constructors. -/
@[simp] theorem beq_info_error : (LogLevel.info == LogLevel.error) = false := rfl

/-- Reduction of the derived level comparison on constructors. -/
@[simp] theorem beq_error_error : (LogLevel.error == LogLevel.error) = true := rfl

/-- Reduction of the derived level comparison on constructors. -/
@[simp] theorem beq_warn_error : (LogLevel.warn == LogLevel.error) = false := rfl

/-- The error-level messages of an info line followed by a block of
error lines are exactly that block. -/
theorem errorMessages_info_then_errors (m : String) (ls : List String) :
    errorMessages (⟨LogLevel.info, m⟩ :: ls.map (fun l => ⟨LogLevel.error, l⟩)) = ls := by
  simp [errorMessages, List.filter_map, Function.comp_def]

/-- On every failure-mode fetch outcome, a sync run writes nothing,
fulfills, and logs at least one error-level line. -/
theorem syncFailure_effects (fo : FetchOutcome) (h : fo.isFailure = true) :
    (syncGraphqlSchemaToDisk fo).writes = [] ∧
    (syncGraphqlSchemaToDisk fo).outcome = .fulfilled ∧
    errorMessages (syncGraphqlSchemaToDisk fo).logs ≠ [] := by
  cases fo with
  | throwErr e => simp [syncGraphqlSchemaToDisk, errorMessages]
  | notOk s => simp [syncGraphqlSchemaToDisk, errorMessages]
  | okBadJson e => simp [syncGraphqlSchemaToDisk, errorMessages]
  | okJson data errors =>
      have ht : jsTruthy errors = true := by
        simpa [FetchOutcome.isFailure] using h
      simp [syncGraphqlSchemaToDisk, errorMessages, ht]

/-- On every failing (non-zero numeric exit code) compiler run, the
effects are: the initial info line, then exactly the trimmed captured
stdout at error level, and a fulfilled promise. -/
theorem codegenFailure_effects (c : Int) (stdout : String) (hc : c ≠ 0) :
    compileRelayGeneratedArtifacts (.failure (.num c) stdout) =
      ⟨⟨.info, "Executing relay-compiler"⟩ ::
        (((jsSplitNewline stdout).drop 4).dropLast).map (fun l => ⟨.error, l⟩),
       .fulfilled⟩ := by
  have hne : JsCode.strictNeZero (.num c) = true := by
    simp [JsCode.strictNeZero, hc]
  simp [compileRelayGeneratedArtifacts, hne, jsSlice_four_negOne]

/-- C7 (confirmed): on a success-status response whose body parses to
`data = D` with no `errors` field, `syncGraphqlSchemaToDisk` performs
exactly one write — the pretty-printed `JSON.stringify` serialization of
the object with single member `data := D`, at the fixed snapshot path,
fully overwriting whatever content any prior filesystem held there — and
the promise it returns fulfills. -/
theorem c7_sync_success (data : Json) (fs : String → Option String) :
    (syncGraphqlSchemaToDisk (.okJson (some data) none)).writes
        = [(SCHEMA_PATH, jsonStringify2 (Json.obj [("data", data)]))] ∧
    (syncGraphqlSchemaToDisk (.okJson (some data) none)).outcome = .fulfilled ∧
    applyWrites fs (syncGraphqlSchemaToDisk (.okJson (some data) none)).writes SCHEMA_PATH
        = some (jsonStringify2 (Json.obj [("data", data)])) := by
  refine ⟨rfl, rfl, ?_⟩
  simp [syncGraphqlSchemaToDisk, jsTruthy, dataFields, applyWrites]

/-- C10 (confirmed): the promise returned by `syncGraphqlSchemaToDisk`
always fulfills — every failure mode (transport rejection, non-success
status, invalid-JSON body, `errors` payload) is caught internally; on
each such failure nothing is written and at least one error-level line
is logged. -/
theorem c10_sync_always_fulfills (fo : FetchOutcome) :
    (syncGraphqlSchemaToDisk fo).outcome = .fulfilled ∧
    (fo.isFailure = true →
      (syncGraphqlSchemaToDisk fo).writes = [] ∧
      errorMessages (syncGraphqlSchemaToDisk fo).logs ≠ []) := by
  constructor
  · cases fo with
    | throwErr e => rfl
    | notOk s => rfl
    | okBadJson e => rfl
    | okJson data errors =>
        by_cases h : jsTruthy errors = true <;>
          simp [syncGraphqlSchemaToDisk, h]
  · intro h
    exact ⟨(syncFailure_effects fo h).1, (syncFailure_effects fo h).2.2⟩

/-- Witness for C10 at a concrete transport rejection. -/
theorem c10_witness :
    (syncGraphqlSchemaToDisk (.throwErr "ECONNREFUSED")).outcome = .fulfilled ∧
    (syncGraphqlSchemaToDisk (.throwErr "ECONNREFUSED")).writes = [] ∧
    errorMessages (syncGraphqlSchemaToDisk (.throwErr "ECONNREFUSED")).logs ≠ [] :=
  ⟨(c10_sync_always_fulfills (.throwErr "ECONNREFUSED")).1,
   ((c10_sync_always_fulfills (.throwErr "ECONNREFUSED")).2 (by decide)).1,
   ((c10_sync_always_fulfills (.throwErr "ECONNREFUSED")).2 (by decide)).2⟩

/-- C4 counterexample: on a success-status response whose body carries
an `errors` field, `syncGraphqlSchemaToDisk` does NOT return an error:
its promise fulfills (the thrown `errors` payload is caught and only
logged), refuting the claim's "returns an error"; the no-write half of
the claim does hold at this input. -/
theorem c4_counterexample :
    (syncGraphqlSchemaToDisk errorsResponse).outcome = PromiseOutcome.fulfilled ∧
    (syncGraphqlSchemaToDisk errorsResponse).writes = [] := by
  constructor <;> rfl

/-- C4 (corrected): whenever `syncGraphqlSchemaToDisk` observes a
non-success status or an `errors` payload (or any other failure mode),
it writes nothing — any previously written snapshot is bit-for-bit
unchanged — and it logs at least one error-level line, but it completes
normally instead of returning an error. -/
theorem c4_sync_failure_amended (fo : FetchOutcome) (fs : String → Option String)
    (p : String) (h : fo.isFailure = true) :
    (syncGraphqlSchemaToDisk fo).writes = [] ∧
    (syncGraphqlSchemaToDisk fo).outcome = .fulfilled ∧
    errorMessages (syncGraphqlSchemaToDisk fo).logs ≠ [] ∧
    applyWrites fs (syncGraphqlSchemaToDisk fo).writes p = fs p := by
  obtain ⟨hw, ho, hl⟩ := syncFailure_effects fo h
  refine ⟨hw, ho, hl, ?_⟩
  rw [hw]
  rfl

/-- Witness for C4's amended theorem at a concrete 500 response over a
filesystem holding a prior snapshot. -/
theorem c4_amended_witness :
    (syncGraphqlSchemaToDisk (.notOk 500)).writes = [] ∧
    (syncGraphqlSchemaToDisk (.notOk 500)).outcome = .fulfilled ∧
    errorMessages (syncGraphqlSchemaToDisk (.notOk 500)).logs ≠ [] ∧
    applyWrites priorSnapshotFs (syncGraphqlSchemaToDisk (.notOk 500)).writes SCHEMA_PATH
      = priorSnapshotFs SCHEMA_PATH :=
  c4_sync_failure_amended (.notOk 500) priorSnapshotFs SCHEMA_PATH (by decide)

/-- C6 (confirmed): on every failing exit of the compiler subprocess
(non-zero numeric exit code), `compileRelayGeneratedArtifacts` logs, at
error level, exactly the captured stdout lines with the first four and
the final line dropped, and its promise fulfills — the failure is not
propagated. -/
theorem c6_codegen_fault_tolerance (c : Int) (stdout : String) (hc : c ≠ 0) :
    compileRelayGeneratedArtifacts (.failure (.num c) stdout) =
      ⟨⟨.info, "Executing relay-compiler"⟩ ::
        (((jsSplitNewline stdout).drop 4).dropLast).map (fun l => ⟨.error, l⟩),
       .fulfilled⟩ :=
  codegenFailure_effects c stdout hc

/-- Witness for C6: a failing exit whose six-line stdout is trimmed to
its fifth line. -/
theorem c6_witness :
    compileRelayGeneratedArtifacts (.failure (.num 1) "a\nb\nc\nd\nboom\n") =
      ⟨⟨.info, "Executing relay-compiler"⟩ ::
        (((jsSplitNewline "a\nb\nc\nd\nboom\n").drop 4).dropLast).map
          (fun l => ⟨.error, l⟩),
       .fulfilled⟩ :=
  c6_codegen_fault_tolerance 1 "a\nb\nc\nd\nboom\n" (by decide)

/-- C3 counterexample: a failing compiler run (exit code 1) whose
captured stdout is the single line "boom" is an error the catch block
detects, yet the run emits no error-level log line at all — the
`.slice(4, -1)` trim of a short stdout is empty, so the failure is
silently dropped, refuting "no error is silently dropped without a log
line". -/
theorem c3_counterexample :
    compileRelayGeneratedArtifacts (.failure (.num 1) "boom") =
      ⟨[⟨.info, "Executing relay-compiler"⟩], .fulfilled⟩ := by
  decide

/-- C3 (corrected): errors are surfaced through logging with two
exceptions forced by the code: schema-sync failures always produce at
least one error-level line, but a failing compiler subprocess is logged
only through its trimmed stdout — exactly the captured lines minus the
first four and the last, hence no line at all when fewer than six lines
were captured — and a watchman clock failure raises a TypeError before
its log statement runs, emitting no error line. -/
theorem c3_error_logging_amended (fo : FetchOutcome) (c : Int) (s : String)
    (hfo : fo.isFailure = true) (hc : c ≠ 0) :
    errorMessages (syncGraphqlSchemaToDisk fo).logs ≠ [] ∧
    errorMessages (compileRelayGeneratedArtifacts (.failure (.num c) s)).logs
      = ((jsSplitNewline s).drop 4).dropLast ∧
    (subscribe clockFailEnv "/work" frontendSubscription .frontendHandler Trace.empty).halt
      = some (.thrown (.typeError "Cannot destructure property clock of undefined")) ∧
    errorMessages
      (subscribe clockFailEnv "/work" frontendSubscription .frontendHandler Trace.empty).logs
      = [] := by
  refine ⟨(syncFailure_effects fo hfo).2.2, ?_, by decide, by decide⟩
  rw [codegenFailure_effects c s hc]
  exact errorMessages_info_then_errors _ _

/-- Witness for C3's amended theorem at a concrete failed fetch and a
concrete one-line compiler failure. -/
theorem c3_amended_witness :
    errorMessages (syncGraphqlSchemaToDisk (.throwErr "socket hang up")).logs ≠ [] ∧
    errorMessages (compileRelayGeneratedArtifacts (.failure (.num 1) "boom")).logs
      = ((jsSplitNewline "boom").drop 4).dropLast ∧
    (subscribe clockFailEnv "/work" frontendSubscription .frontendHandler Trace.empty).halt
      = some (.thrown (.typeError "Cannot destructure property clock of undefined")) ∧
    errorMessages
      (subscribe clockFailEnv "/work" frontendSubscription .frontendHandler Trace.empty).logs
      = [] :=
  c3_error_logging_amended (.throwErr "socket hang up") 1 "boom" (by decide) (by decide)

/-- C1 counterexample: `watchProject` has no cache — calling it twice
for the same path issues two `watch-project` requests to the service,
not one, refuting "across the two calls only one watch-establish request
is issued". -/
theorem c1_counterexample :
    (watchProjectTwice allOkEnv "/work/vendor/frontend/app").1.requests
      = [.watchProject "/work/vendor/frontend/app",
         .watchProject "/work/vendor/frontend/app"] ∧
    (watchProjectTwice allOkEnv "/work/vendor/frontend/app").1.requests.length ≠ 1 := by
  decide

/-- C1 (corrected): `watchProject` performs no caching — every call,
first or repeated, issues its own watch-establish request, so n calls
for the same path issue n requests; any idempotence of the watch is
provided by the notification service itself, not by this code. -/
theorem c1_no_watch_caching (o : Env) (p : String) (wr : WatchResp)
    (h : o.watchProjectResp p = .ok wr) :
    (watchProject o p Trace.empty).1.requests = [.watchProject p] ∧
    (watchProjectTwice o p).1.requests = [.watchProject p, .watchProject p] := by
  cases hw : wr.warning <;>
    simp [watchProject, watchProjectTwice, Trace.empty, Trace.log, Trace.request,
          Trace.warnOpt, h, hw]

/-- Witness for C1's amended theorem on a concrete environment and
path. -/
theorem c1_amended_witness :
    (watchProject allOkEnv "/work/app/models/api/graph" Trace.empty).1.requests
      = [.watchProject "/work/app/models/api/graph"] ∧
    (watchProjectTwice allOkEnv "/work/app/models/api/graph").1.requests
      = [.watchProject "/work/app/models/api/graph",
         .watchProject "/work/app/models/api/graph"] :=
  c1_no_watch_caching allOkEnv "/work/app/models/api/graph"
    ⟨"/work", some "/work/app/models/api/graph", none⟩ rfl

/-- C2 (code_bug): the source intends to log clock/subscribe errors and
continue (`if (error) logger.error(error)`), but on a clock failure the
callback's parameter destructuring of the absent response raises a
TypeError before anything is logged — no error line, no dispatcher, and
an exception escaping the callback instead of a quietly inactive
subscription; on a subscribe failure the error is logged, but reading
`response.subscribe` of the absent response then raises a TypeError as
well. -/
theorem c2_clock_subscribe_error_bug :
    ((subscribe clockFailEnv "/work" frontendSubscription .frontendHandler Trace.empty).halt
        = some (.thrown (.typeError "Cannot destructure property clock of undefined")) ∧
     errorMessages
       (subscribe clockFailEnv "/work" frontendSubscription .frontendHandler Trace.empty).logs
        = [] ∧
     (subscribe clockFailEnv "/work" frontendSubscription .frontendHandler Trace.empty).listeners
        = []) ∧
    ((subscribe subscribeFailEnv "/work" frontendSubscription .frontendHandler Trace.empty).halt
        = some (.thrown (.typeError "Cannot read properties of undefined (reading subscribe)")) ∧
     errorMessages
       (subscribe subscribeFailEnv "/work" frontendSubscription .frontendHandler Trace.empty).logs
        = ["subscription rejected"] ∧
     (subscribe subscribeFailEnv "/work" frontendSubscription .frontendHandler Trace.empty).listeners
        = []) := by
  decide

/-- C5 (confirmed): routing is exact-match on subscription id — with
two registered dispatchers A and B with distinct ids, an event tagged
with A's id produces exactly one handler invocation, A's, carrying the
event (and hence its file list) unchanged, and B's handler is not
invoked; an event tagged with any other id is ignored by A's
dispatcher. -/
theorem c5_exact_routing (A B : Listener) (e eOther : ChangeEvent)
    (hids : A.subId ≠ B.subId) (he : e.subscription = A.subId)
    (hother : eOther.subscription ≠ A.subId) :
    dispatchEvent [A, B] e = [(A.tag, e)] ∧
    listenerDeliver A.subId A.tag eOther = none := by
  constructor
  · have hB : e.subscription ≠ B.subId := by rw [he]; exact hids
    simp [dispatchEvent, listenerDeliver, he, hB, hids]
  · simp [listenerDeliver, hother]

/-- Witness for C5: the graph-tagged event reaches only the graph
dispatcher; a stray-tagged event is ignored by it. -/
theorem c5_witness :
    dispatchEvent [graphListener, frontendListener] graphEvent
      = [(graphListener.tag, graphEvent)] ∧
    listenerDeliver graphListener.subId graphListener.tag strayEvent = none :=
  c5_exact_routing graphListener frontendListener graphEvent strayEvent
    (by decide) (by decide) (by decide)

/-- C8 (confirmed): after `start` succeeds against a healthy service,
the registered dispatchers are exactly the graph and frontend ones; an
event batch tagged "graph" (the schema-source subscription) triggers the
pipeline sequence sync-then-codegen, in that order (the handler awaits
the sync before starting codegen), and an event tagged "frontend"
triggers codegen only — never sync. -/
theorem c8_pipeline_composition (o : Env) (root : String) (v : String)
    (wg wf : WatchResp) (cg cf sg sf : String) (files : List FileEntry)
    (hcap : o.capability = .ok v)
    (hwg : o.watchProjectResp (pathNormalize (pathJoin root "app/models/api/graph")) = .ok wg)
    (hcg : o.clockResp wg.watch = .ok cg)
    (hsg : o.subscribeResp wg.watch "graph" = .ok sg)
    (hwf : o.watchProjectResp (pathNormalize (pathJoin root "vendor/frontend/app")) = .ok wf)
    (hcf : o.clockResp wf.watch = .ok cf)
    (hsf : o.subscribeResp wf.watch "frontend" = .ok sf) :
    (start o root).listeners
      = [⟨"graph", .graphHandler⟩, ⟨"frontend", .frontendHandler⟩] ∧
    eventPipelineActions (start o root).listeners ⟨"graph", files⟩
      = [.sync, .codegen] ∧
    eventPipelineActions (start o root).listeners ⟨"frontend", files⟩
      = [.codegen] := by
  have hgf : ("graph" : String) ≠ "frontend" := by decide
  have hfg : ("frontend" : String) ≠ "graph" := by decide
  have hl : (start o root).listeners
      = [⟨"graph", .graphHandler⟩, ⟨"frontend", .frontendHandler⟩] := by
    cases hwgw : wg.warning <;> cases hwfw : wf.warning <;>
      simp [start, checkCapability, subscribe, watchProject, mergeSyncResult,
            mergeRunResult, Trace.empty, Trace.log, Trace.request, Trace.addListener,
            Trace.warnOpt, graphSubscription, frontendSubscription,
            hcap, hwg, hcg, hsg, hwf, hcf, hsf, hwgw, hwfw]
  refine ⟨hl, ?_, ?_⟩ <;> rw [hl] <;>
    simp [eventPipelineActions, dispatchEvent, listenerDeliver, handlerActions, hgf, hfg]

/-- Witness for C8 on the all-success environment. -/
theorem c8_witness :
    (start allOkEnv "/work").listeners
      = [⟨"graph", .graphHandler⟩, ⟨"frontend", .frontendHandler⟩] ∧
    eventPipelineActions (start allOkEnv "/work").listeners ⟨"graph", sampleFiles⟩
      = [.sync, .codegen] ∧
    eventPipelineActions (start allOkEnv "/work").listeners ⟨"frontend", sampleFiles⟩
      = [.codegen] :=
  c8_pipeline_composition allOkEnv "/work" "4.9.0"
    ⟨"/work", some "/work/app/models/api/graph", none⟩
    ⟨"/work", some "/work/vendor/frontend/app", none⟩
    "c:1:2:3:4" "c:1:2:3:4" "graph" "frontend" sampleFiles
    rfl rfl rfl rfl rfl rfl rfl

/-- C9 counterexample: when the capability check fails, the connection
is closed by `checkCapability`'s error path — a close that does not
originate from the termination-signal handler, refuting "no other
component or code path ever closes the connection". -/
theorem c9_counterexample :
    (runSystem capFailEnv "/work" none).closes = [CloseOrigin.capabilityCheckFailure] ∧
    CloseOrigin.capabilityCheckFailure ≠ CloseOrigin.signalHandler := by
  decide

/-- C9 (corrected): in every run the shared connection is closed at most
once, and every close originates either from the termination-signal
handler or from `checkCapability`'s failure path (which closes the
client just before exiting non-zero); no other code path closes it. -/
theorem c9_close_paths (o : Env) (root : String) (sig : Option Signal) :
    (runSystem o root sig).closes = [] ∨
    (runSystem o root sig).closes = [CloseOrigin.capabilityCheckFailure] ∨
    (runSystem o root sig).closes = [CloseOrigin.signalHandler] := by
  have hstart : (start o root).closes = [] ∨
      ((start o root).closes = [CloseOrigin.capabilityCheckFailure] ∧
       (start o root).halt = some (Halt.exited 1)) := by
    simp only [start]
    cases hc : o.capability with
    | error e =>
        right
        constructor <;>
          simp [checkCapability, hc, Trace.empty, Trace.request, Trace.log,
                Trace.close, Trace.exitProcess]
    | ok v =>
        left
        simp only [checkCapability, hc]
        rw [subscribe_closes, subscribe_closes]
        simp [mergeSyncResult, mergeRunResult, Trace.log, Trace.request, Trace.empty]
  cases sig with
  | none =>
      simp only [runSystem]
      rcases hstart with h | ⟨h, _⟩
      · exact Or.inl h
      · exact Or.inr (Or.inl h)
  | some s =>
      simp only [runSystem, deliverSignal]
      by_cases hh : (start o root).halt.isSome = true
      · rw [if_pos hh]
        rcases hstart with h | ⟨h, _⟩
        · exact Or.inl h
        · exact Or.inr (Or.inl h)
      · rw [if_neg hh]
        rcases hstart with h | ⟨h, hhalt⟩
        · refine Or.inr (Or.inr ?_)
          simp [Trace.log, Trace.close, Trace.exitProcess, h]
        · exact absurd (by rw [hhalt]; rfl) hh

end GraphWatcher
